import Mathlib

/-!
Verification of the Device Metrics Collection logic of react-native-device-ai.

The embedding covers the three Windows implementations:
  - windows/ReactNativeDeviceAi/ReactNativeDeviceAi.cpp (probe functions with
    hardcoded fallback constants, assembled by getDeviceInfo),
  - windows_t/DeviceAIFabric/src/WindowsDeviceAIFabric.cpp (the fabric:
    Initialize, CollectDeviceInfo, the stateful GetCPUUsage delta sampler),
  - windows/DeviceAIFabric/src/DeviceAITurboModule.cpp (the DeviceAI
    constructor that throws when the fabric cannot be set up).

Each underlying OS call is modelled by an outcome oracle: an inductive type
whose constructors are exactly the observable results the C++ code branches
on (success with the values the call produced, a FALSE/err return code, or an
exception raised inside the enclosing try block).  The probe functions are
then direct translations of the C++ control flow.  C++ `double` arithmetic is
modelled exactly over `Rat`; `uint64_t` arithmetic is modelled over `Nat`
with explicit reduction modulo 2^64 where the source wraps.
-/

namespace RNDeviceAi

/-- Outcome of the GlobalMemoryStatusEx call inside GetMemoryInfo: the call
returns TRUE with the two physical-memory readings, returns FALSE, or an
exception is raised inside the try block. -/
inductive MemOutcome
  | ok (totalPhys availPhys : Nat)
  | apiFail
  | throwEx
deriving DecidableEq, Repr

/-- Memory field of the snapshot (total and available, in bytes; the C++
stores the uint64 readings cast to double, which is order-preserving). -/
structure MemInfo where
  total : Nat
  available : Nat
deriving DecidableEq, Repr

/-- GetMemoryInfo from ReactNativeDeviceAi.cpp: the real readings on success,
the fallback pair 8 GiB / 4 GiB when the call returns FALSE or throws. -/
def GetMemoryInfo : MemOutcome → MemInfo
  | .ok t a => ⟨t, a⟩
  | .apiFail => ⟨8589934592, 4294967296⟩
  | .throwEx => ⟨8589934592, 4294967296⟩

/-- Outcome of the GetDiskFreeSpaceEx call inside GetStorageInfo, carrying
freeBytesAvailable and totalNumberOfBytes on success. -/
inductive StorOutcome
  | ok (freeBytesAvailable totalNumberOfBytes : Nat)
  | apiFail
  | throwEx
deriving DecidableEq, Repr

/-- Storage field of the snapshot. -/
structure StorInfo where
  total : Nat
  available : Nat
deriving DecidableEq, Repr

/-- GetStorageInfo from ReactNativeDeviceAi.cpp: total := totalNumberOfBytes,
available := freeBytesAvailable on success; fallback 512 GiB / 256 GiB when
the call returns FALSE or throws. -/
def GetStorageInfo : StorOutcome → StorInfo
  | .ok fr tot => ⟨tot, fr⟩
  | .apiFail => ⟨549755813888, 274877906944⟩
  | .throwEx => ⟨549755813888, 274877906944⟩

/-- Outcome of the BatteryManager::GetBatteryReport call: a non-null report
carrying the three nullable readings, a null report (desktop/AC system with
no battery device), or an exception. -/
inductive BatOutcome
  | report (chargeRate : Option Int) (remCap fullCap : Option Int)
  | noReport
  | throwEx
deriving DecidableEq, Repr

/-- Battery field of the snapshot. -/
structure BatteryInfo where
  level : Rat
  isCharging : Bool
deriving DecidableEq, Repr

/-- The isCharging computation: chargeRate.has_value() && chargeRate.value() > 0. -/
def chargingOf : Option Int → Bool
  | some r => decide (0 < r)
  | none => false

/-- GetBatteryInfo from ReactNativeDeviceAi.cpp: level is rem/full*100 when
both capacities are present, 85 when either is absent; a null report gives
100 / not charging; an exception gives the 85 / not charging fallback. -/
def GetBatteryInfo : BatOutcome → BatteryInfo
  | .report cr (some rem) (some full) => ⟨(rem : Rat) / (full : Rat) * 100, chargingOf cr⟩
  | .report cr none _ => ⟨85, chargingOf cr⟩
  | .report cr (some _) none => ⟨85, chargingOf cr⟩
  | .noReport => ⟨100, false⟩
  | .throwEx => ⟨85, false⟩

/-- Outcome of the CPU probe's OS calls.  GetSystemInfo cannot signal failure
through a return code, so a successful run always carries the core count; the
three PDH failure points (open query, add counter, format value) each leave
usage at the 25.0 default while keeping the real core count; an exception
anywhere in the try block reaches the catch, which overwrites both fields. -/
inductive CpuOutcome
  | pdhOk (cores : Nat) (value : Rat)
  | fmtFail (cores : Nat)
  | addFail (cores : Nat)
  | openFail (cores : Nat)
  | throwEx
deriving DecidableEq, Repr

/-- CPU field of the snapshot. -/
structure CpuInfo where
  usage : Rat
  cores : Nat
deriving DecidableEq, Repr

/-- GetCpuInfo from ReactNativeDeviceAi.cpp.  Note the formatted PDH value is
stored without any clamping, and the catch branch sets usage 25, cores 8. -/
def GetCpuInfo : CpuOutcome → CpuInfo
  | .pdhOk c v => ⟨v, c⟩
  | .fmtFail c => ⟨25, c⟩
  | .addFail c => ⟨25, c⟩
  | .openFail c => ⟨25, c⟩
  | .throwEx => ⟨25, 8⟩

/-- Outcome of the network probe: a non-null internet connection profile
(whose adapter, when non-null, carries the IANA interface type), a null
profile, or an exception. -/
inductive NetOutcome
  | profile (iana : Option Nat)
  | noProfile
  | throwEx
deriving DecidableEq, Repr

/-- Network field of the snapshot. -/
structure NetworkInfo where
  type : String
  isConnected : Bool
deriving DecidableEq, Repr

/-- The switch on IanaInterfaceType in GetNetworkInfo. -/
def ianaTypeName (iana : Nat) : String :=
  if iana = 6 then "ethernet"
  else if iana = 71 then "wifi"
  else if iana = 244 then "cellular"
  else "unknown"

/-- GetNetworkInfo from ReactNativeDeviceAi.cpp: a live profile is connected
with the adapter-derived type; a null profile gives none / not connected; an
exception gives the wifi / connected fallback. -/
def GetNetworkInfo : NetOutcome → NetworkInfo
  | .profile (some iana) => ⟨ianaTypeName iana, true⟩
  | .profile none => ⟨"unknown", true⟩
  | .noProfile => ⟨"none", false⟩
  | .throwEx => ⟨"wifi", true⟩

/-- Outcome of the GetVersionEx call inside GetOSVersion. -/
inductive OsVerOutcome
  | ok (major minor build : Nat)
  | apiFail
  | throwEx
deriving DecidableEq, Repr

/-- GetOSVersion from ReactNativeDeviceAi.cpp: major.minor.build on success,
the fixed string otherwise. -/
def GetOSVersion : OsVerOutcome → String
  | .ok maj mi bld => toString maj ++ "." ++ toString mi ++ "." ++ toString bld
  | .apiFail => "10.0.22000"
  | .throwEx => "10.0.22000"

/-- Outcome of a registry string lookup (RegOpenKeyEx then RegQueryValueEx),
as used by GetBuildNumber and GetProcessorInfo. -/
inductive RegOutcome
  | ok (value : String)
  | valueFail
  | openFail
  | throwEx
deriving DecidableEq, Repr

/-- GetBuildNumber from ReactNativeDeviceAi.cpp: the registry value on
success, "22000" on every failure path. -/
def GetBuildNumber : RegOutcome → String
  | .ok s => s
  | .valueFail => "22000"
  | .openFail => "22000"
  | .throwEx => "22000"

/-- GetProcessorInfo from ReactNativeDeviceAi.cpp: the registry value on
success, "Unknown Processor" on every failure path. -/
def GetProcessorInfo : RegOutcome → String
  | .ok s => s
  | .valueFail => "Unknown Processor"
  | .openFail => "Unknown Processor"
  | .throwEx => "Unknown Processor"

/-- Outcome of GetNativeSystemInfo inside GetSystemArchitecture: the call is
void, so the only failure mode is an exception. -/
inductive ArchOutcome
  | ok (wProcessorArchitecture : Nat)
  | throwEx
deriving DecidableEq, Repr

/-- Value of the PROCESSOR_ARCHITECTURE_AMD64 constant. -/
def ARCH_AMD64 : Nat := 9

/-- Value of the PROCESSOR_ARCHITECTURE_ARM64 constant. -/
def ARCH_ARM64 : Nat := 12

/-- Value of the PROCESSOR_ARCHITECTURE_INTEL constant. -/
def ARCH_INTEL : Nat := 0

/-- Value of the PROCESSOR_ARCHITECTURE_ARM constant. -/
def ARCH_ARM : Nat := 5

/-- GetSystemArchitecture from ReactNativeDeviceAi.cpp. -/
def GetSystemArchitecture : ArchOutcome → String
  | .ok a =>
      if a = ARCH_AMD64 then "x64"
      else if a = ARCH_ARM64 then "ARM64"
      else if a = ARCH_INTEL then "x86"
      else if a = ARCH_ARM then "ARM"
      else "Unknown"
  | .throwEx => "x64"

/-- The bundle of probe outcomes for one getDeviceInfo run. -/
structure ProbeOutcomes where
  osv : OsVerOutcome
  proc : RegOutcome
  mem : MemOutcome
  stor : StorOutcome
  bat : BatOutcome
  cpu : CpuOutcome
  net : NetOutcome
deriving DecidableEq, Repr

/-- The snapshot record resolved by getDeviceInfo. -/
structure DeviceInfo where
  platform : String
  osVersion : String
  deviceModel : String
  memory : MemInfo
  storage : StorInfo
  battery : BatteryInfo
  cpu : CpuInfo
  network : NetworkInfo
deriving DecidableEq, Repr

/-- The field assignments of getDeviceInfo, each probe called exactly once. -/
def collectFields (o : ProbeOutcomes) : DeviceInfo :=
  ⟨"windows", GetOSVersion o.osv, GetProcessorInfo o.proc, GetMemoryInfo o.mem,
   GetStorageInfo o.stor, GetBatteryInfo o.bat, GetCpuInfo o.cpu, GetNetworkInfo o.net⟩

/-- getDeviceInfo from ReactNativeDeviceAi.cpp: resolve with the assembled
snapshot, reject on an exception.  Every probe is noexcept with an internal
catch-all, so the reject branch of the source is unreachable and the
embedding always resolves. -/
def getDeviceInfo (o : ProbeOutcomes) : Except String DeviceInfo :=
  Except.ok (collectFields o)

end RNDeviceAi

namespace Fabric

/-- Modulus of uint64 arithmetic. -/
def u64 : Nat := 18446744073709551616

/-- Unsigned 64-bit subtraction with wraparound, as performed by the C++
expressions of the form a - b on uint64_t operands. -/
def sub64 (a b : Nat) : Nat := (a + u64 - b % u64) % u64

/-- The three static locals of GetCPUUsage in WindowsDeviceAIFabric.cpp
(lastIdleTime, lastKernelTime, lastUserTime), all zero at program start. -/
structure CpuState where
  lastIdleTime : Nat
  lastKernelTime : Nat
  lastUserTime : Nat
deriving DecidableEq, Repr

/-- The zero-initialized static state before the first call. -/
def initialCpuState : CpuState := ⟨0, 0, 0⟩

/-- Outcome of the GetSystemTimes call: success carries the idle, kernel and
user FILETIME readings already combined into uint64 tick counts. -/
inductive TimesOutcome
  | ok (idle kernel user : Nat)
  | apiFail
deriving DecidableEq, Repr

/-- GetCPUUsage from WindowsDeviceAIFabric.cpp, returning the usage together
with the updated static state.  When a prior sample exists (lastIdleTime is
nonzero) and the total delta is positive, usage is
100 * (totalDiff - idleDiff) / totalDiff with the subtraction performed in
wrapping uint64 arithmetic (the double arithmetic of the source is modelled
exactly over Rat); otherwise the new sample is stored and 0.0 is returned.
A failed GetSystemTimes leaves the state untouched and returns 0.0. -/
def GetCPUUsage (st : CpuState) (o : TimesOutcome) : Rat × CpuState :=
  match o with
  | .apiFail => (0, st)
  | .ok idle kernel user =>
      if st.lastIdleTime ≠ 0 then
        let idleDiff := sub64 idle st.lastIdleTime
        let kernelDiff := sub64 kernel st.lastKernelTime
        let userDiff := sub64 user st.lastUserTime
        let totalDiff := (kernelDiff + userDiff) % u64
        if 0 < totalDiff then
          (((sub64 totalDiff idleDiff : Nat) : Rat) / (totalDiff : Rat) * 100,
           ⟨idle, kernel, user⟩)
        else
          (0, ⟨idle, kernel, user⟩)
      else
        (0, ⟨idle, kernel, user⟩)

/-- Outcome of the CoInitializeEx call at the top of the fabric setup. -/
inductive ComInitOutcome
  | ok
  | comFail
deriving DecidableEq, Repr

/-- Outcome of the CoInitializeSecurity call: success, the RPC_E_TOO_LATE
failure (tolerated by the source), or any other failing HRESULT. -/
inductive SecInitOutcome
  | ok
  | tooLate
  | otherFail
deriving DecidableEq, Repr

/-- The Initialize method of WindowsDeviceAIFabric.cpp: returns false when
CoInitializeEx fails, or when CoInitializeSecurity fails with anything other
than RPC_E_TOO_LATE; otherwise sets m_initialized and returns true. -/
def fabricInit : ComInitOutcome → SecInitOutcome → Bool
  | .comFail, _ => false
  | .ok, .otherFail => false
  | .ok, .ok => true
  | .ok, .tooLate => true

/-- The fabric object; inited models the m_initialized member. -/
structure FabricObj where
  inited : Bool
deriving DecidableEq, Repr

/-- The DeviceAI constructor of DeviceAITurboModule.cpp: it calls the fabric
setup and throws a runtime_error when that returns false, so construction
yields either a collector whose fabric is marked ready or the propagated
construction-time error. -/
def DeviceAIConstruct (c : ComInitOutcome) (s : SecInitOutcome) : Except String FabricObj :=
  if fabricInit c s then Except.ok ⟨true⟩
  else Except.error "Failed to initialize Windows Device AI Fabric"

/-- A construction attempt ended in the propagated runtime_error. -/
def isError : Except String FabricObj → Bool
  | .error _ => true
  | .ok _ => false

/-- The WindowsDeviceInfo record of WindowsDeviceAIFabric.h. -/
structure WindowsDeviceInfo where
  osVersion : String
  buildNumber : String
  architecture : String
  processorName : String
  totalMemory : Nat
  availableMemory : Nat
  totalDiskSpace : Nat
  availableDiskSpace : Nat
  batteryLevel : Int
  batteryStatus : String
  runningProcessCount : Nat
  systemUptime : Nat
  cpuUsage : Rat
  networkStatus : String
deriving DecidableEq, Repr

/-- The record produced by the aggregate zero-initializer WindowsDeviceInfo
info = {}: every string empty, every numeric field zero. -/
def zeroDeviceInfo : WindowsDeviceInfo :=
  ⟨"", "", "", "", 0, 0, 0, 0, 0, "", 0, 0, 0, ""⟩

/-- Outcome of the GetVersionEx call inside the fabric's GetOSVersion (which
formats only major.minor). -/
inductive VerOutcome
  | ok (major minor : Nat)
  | apiFail
deriving DecidableEq, Repr

/-- GetOSVersion from WindowsDeviceAIFabric.cpp. -/
def fabricGetOSVersion : VerOutcome → String
  | .ok a b => toString a ++ "." ++ toString b
  | .apiFail => "Unknown"

/-- QueryWMI from WindowsDeviceAIFabric.cpp: the simplified implementation
returns the constant "Unknown" for every query. -/
def QueryWMI (_query _property : String) : String := "Unknown"

/-- GetProcessorInfo from WindowsDeviceAIFabric.cpp: a constant string. -/
def fabricProcessorInfo : String := "Intel64 Family Processor"

/-- Outcome of the GetDiskFreeSpaceEx call in CollectDeviceInfo. -/
inductive DiskOutcome
  | ok (freeBytesAvailable totalNumberOfBytes : Nat)
  | apiFail
deriving DecidableEq, Repr

/-- Outcome of the GetSystemPowerStatus call, carrying ACLineStatus and
BatteryLifePercent on success. -/
inductive PowerOutcome
  | ok (acLineStatus batteryLifePercent : Nat)
  | apiFail
deriving DecidableEq, Repr

/-- GetBatteryLevel from WindowsDeviceAIFabric.cpp: the percentage when it is
not the 255 sentinel, -1 otherwise. -/
def fabricGetBatteryLevel : PowerOutcome → Int
  | .ok _ p => if p ≠ 255 then (p : Int) else -1
  | .apiFail => -1

/-- GetBatteryStatus from WindowsDeviceAIFabric.cpp. -/
def fabricGetBatteryStatus : PowerOutcome → String
  | .ok ac _ => if ac = 1 then "Charging" else if ac = 0 then "On Battery" else "Unknown"
  | .apiFail => "Unknown"

/-- Outcome of the EnumProcesses call, carrying bytesReturned on success. -/
inductive ProcOutcome
  | ok (bytesReturned : Nat)
  | apiFail
deriving DecidableEq, Repr

/-- The ambient OS readings consumed by one CollectDeviceInfo run.  The
GlobalMemoryStatusEx return value is ignored by the source (the struct
fields are read unconditionally), so the memory readings are plain values. -/
structure FabricEnv where
  ver : VerOutcome
  ullTotalPhys : Nat
  ullAvailPhys : Nat
  disk : DiskOutcome
  power : PowerOutcome
  tickCount64 : Nat
  times : TimesOutcome
  procs : ProcOutcome
deriving DecidableEq, Repr

/-- CollectDeviceInfo from WindowsDeviceAIFabric.cpp, with the static CPU
state threaded explicitly.  When m_initialized is false the zero-initialized
record is returned at once; otherwise each field is filled in order (disk and
process-count fields keep their zero initialization when their calls fail),
the network status is the hardcoded "Connected", and the catch-all around the
body is unreachable in the model since every helper is total. -/
def CollectDeviceInfo (f : FabricObj) (st : CpuState) (e : FabricEnv) :
    WindowsDeviceInfo × CpuState :=
  if f.inited = false then (zeroDeviceInfo, st)
  else
    let diskPair : Nat × Nat :=
      match e.disk with
      | .ok fr tot => (tot, fr)
      | .apiFail => (0, 0)
    let procCount : Nat :=
      match e.procs with
      | .ok b => b / 4
      | .apiFail => 0
    let cpu := GetCPUUsage st e.times
    (⟨fabricGetOSVersion e.ver,
      QueryWMI "SELECT BuildNumber FROM Win32_OperatingSystem" "BuildNumber",
      QueryWMI "SELECT OSArchitecture FROM Win32_OperatingSystem" "OSArchitecture",
      fabricProcessorInfo,
      e.ullTotalPhys, e.ullAvailPhys,
      diskPair.1, diskPair.2,
      fabricGetBatteryLevel e.power,
      fabricGetBatteryStatus e.power,
      procCount,
      e.tickCount64 / 1000,
      cpu.1,
      "Connected"⟩, cpu.2)

end Fabric

namespace RNDeviceAi

/-- The memory query failed: FALSE return or exception. -/
def memFailed : MemOutcome → Bool
  | .ok _ _ => false
  | .apiFail => true
  | .throwEx => true

/-- The storage query failed: FALSE return or exception. -/
def storFailed : StorOutcome → Bool
  | .ok _ _ => false
  | .apiFail => true
  | .throwEx => true

/-- The battery query failed: null report or exception. -/
def batFailed : BatOutcome → Bool
  | .report _ _ _ => false
  | .noReport => true
  | .throwEx => true

/-- The network query failed: null profile or exception. -/
def netFailed : NetOutcome → Bool
  | .profile _ => false
  | .noProfile => true
  | .throwEx => true

/-- A successful GlobalMemoryStatusEx reading is sane when available does not
exceed total, which the OS guarantees for physical memory; failures are
unconstrained. -/
def memReadingSane : MemOutcome → Bool
  | .ok t a => decide (a ≤ t)
  | .apiFail => true
  | .throwEx => true

/-- A successful GetDiskFreeSpaceEx reading is sane when the free bytes
available to the caller do not exceed the volume size, which the OS
guarantees; failures are unconstrained. -/
def storReadingSane : StorOutcome → Bool
  | .ok fr tot => decide (fr ≤ tot)
  | .apiFail => true
  | .throwEx => true

end RNDeviceAi

namespace RNDeviceAi

/-- C1: when every underlying OS query fails (the CPU probe fails by an
exception, GetSystemInfo having no failure return), getDeviceInfo resolves
with a snapshot whose metric fields are exactly the fallback table: memory
8589934592 / 4294967296, storage 549755813888 / 274877906944, battery level
85 (100 when no battery device exists) and not charging, cpu usage 25 with
8 cores, and the chosen network fallback (none / disconnected when the
profile is null, wifi / connected when the probe throws). -/
theorem allFail_snapshot (o : ProbeOutcomes)
    (hm : memFailed o.mem = true) (hs : storFailed o.stor = true)
    (hb : batFailed o.bat = true) (hc : o.cpu = CpuOutcome.throwEx)
    (hn : netFailed o.net = true) :
    ∃ d, getDeviceInfo o = Except.ok d ∧
      d.memory = ⟨8589934592, 4294967296⟩ ∧
      d.storage = ⟨549755813888, 274877906944⟩ ∧
      d.battery = (if o.bat = BatOutcome.noReport then ⟨100, false⟩ else ⟨85, false⟩) ∧
      d.cpu = ⟨25, 8⟩ ∧
      d.network = (if o.net = NetOutcome.noProfile then ⟨"none", false⟩ else ⟨"wifi", true⟩) := by
  obtain ⟨osv, proc, mem, stor, bat, cpu, net⟩ := o
  simp only at hm hs hb hc hn
  subst hc
  refine ⟨_, rfl, ?_, ?_, ?_, rfl, ?_⟩
  · cases mem with
    | ok t a => simp [memFailed] at hm
    | apiFail => rfl
    | throwEx => rfl
  · cases stor with
    | ok fr tot => simp [storFailed] at hs
    | apiFail => rfl
    | throwEx => rfl
  · cases bat with
    | report cr rc fc => simp [batFailed] at hb
    | noReport => simp [collectFields, GetBatteryInfo]
    | throwEx => simp [collectFields, GetBatteryInfo]
  · cases net with
    | profile i => simp [netFailed] at hn
    | noProfile => simp [collectFields, GetNetworkInfo]
    | throwEx => simp [collectFields, GetNetworkInfo]

/-- Witness for C1 at a concrete all-failing run. -/
theorem allFail_snapshot_witness :
    ∃ d, getDeviceInfo ⟨OsVerOutcome.apiFail, RegOutcome.openFail, MemOutcome.apiFail,
        StorOutcome.throwEx, BatOutcome.noReport, CpuOutcome.throwEx, NetOutcome.throwEx⟩
        = Except.ok d ∧
      d.memory = ⟨8589934592, 4294967296⟩ ∧
      d.storage = ⟨549755813888, 274877906944⟩ ∧
      d.battery = (if (BatOutcome.noReport : BatOutcome) = BatOutcome.noReport
          then ⟨100, false⟩ else ⟨85, false⟩) ∧
      d.cpu = ⟨25, 8⟩ ∧
      d.network = (if (NetOutcome.throwEx : NetOutcome) = NetOutcome.noProfile
          then ⟨"none", false⟩ else ⟨"wifi", true⟩) :=
  allFail_snapshot ⟨OsVerOutcome.apiFail, RegOutcome.openFail, MemOutcome.apiFail,
    StorOutcome.throwEx, BatOutcome.noReport, CpuOutcome.throwEx, NetOutcome.throwEx⟩
    rfl rfl rfl rfl rfl

/-- C2: every snapshot resolved by getDeviceInfo satisfies
available ≤ total for the memory field and the storage field, whether the
values are real OS readings (which satisfy the OS guarantee) or the
fallback pair. -/
theorem mem_storage_invariant (o : ProbeOutcomes) (d : DeviceInfo)
    (hd : getDeviceInfo o = Except.ok d)
    (hm : memReadingSane o.mem = true)
    (hs : storReadingSane o.stor = true) :
    d.memory.available ≤ d.memory.total ∧ d.storage.available ≤ d.storage.total := by
  obtain ⟨osv, proc, mem, stor, bat, cpu, net⟩ := o
  simp only [getDeviceInfo, Except.ok.injEq] at hd
  subst hd
  simp only at hm hs
  constructor
  · cases mem with
    | ok t a => simpa [memReadingSane] using hm
    | apiFail =>
        show (4294967296 : Nat) ≤ 8589934592
        decide
    | throwEx =>
        show (4294967296 : Nat) ≤ 8589934592
        decide
  · cases stor with
    | ok fr tot => simpa [storReadingSane] using hs
    | apiFail =>
        show (274877906944 : Nat) ≤ 549755813888
        decide
    | throwEx =>
        show (274877906944 : Nat) ≤ 549755813888
        decide

/-- Witness for C2 at a concrete run mixing a real memory reading with a
failed storage query. -/
theorem mem_storage_invariant_witness :
    (collectFields ⟨OsVerOutcome.throwEx, RegOutcome.throwEx, MemOutcome.ok 17179869184 8589934592,
        StorOutcome.apiFail, BatOutcome.throwEx, CpuOutcome.throwEx, NetOutcome.throwEx⟩).memory.available
      ≤ (collectFields ⟨OsVerOutcome.throwEx, RegOutcome.throwEx, MemOutcome.ok 17179869184 8589934592,
        StorOutcome.apiFail, BatOutcome.throwEx, CpuOutcome.throwEx, NetOutcome.throwEx⟩).memory.total ∧
    (collectFields ⟨OsVerOutcome.throwEx, RegOutcome.throwEx, MemOutcome.ok 17179869184 8589934592,
        StorOutcome.apiFail, BatOutcome.throwEx, CpuOutcome.throwEx, NetOutcome.throwEx⟩).storage.available
      ≤ (collectFields ⟨OsVerOutcome.throwEx, RegOutcome.throwEx, MemOutcome.ok 17179869184 8589934592,
        StorOutcome.apiFail, BatOutcome.throwEx, CpuOutcome.throwEx, NetOutcome.throwEx⟩).storage.total :=
  mem_storage_invariant
    ⟨OsVerOutcome.throwEx, RegOutcome.throwEx, MemOutcome.ok 17179869184 8589934592,
     StorOutcome.apiFail, BatOutcome.throwEx, CpuOutcome.throwEx, NetOutcome.throwEx⟩
    _ rfl (by decide) rfl

/-- C3: each snapshot field depends only on its own probe outcome, the whole
snapshot is always produced (getDeviceInfo always resolves), and in the
concrete scenario where the memory query returns 16 GiB / 8 GiB while every
other query fails, only the memory field reflects the reading and every
other metric field is its fallback. -/
theorem probe_isolation :
    (∀ o o' : ProbeOutcomes, o.mem = o'.mem →
      (collectFields o).memory = (collectFields o').memory) ∧
    (∀ o o' : ProbeOutcomes, o.stor = o'.stor →
      (collectFields o).storage = (collectFields o').storage) ∧
    (∀ o o' : ProbeOutcomes, o.bat = o'.bat →
      (collectFields o).battery = (collectFields o').battery) ∧
    (∀ o o' : ProbeOutcomes, o.cpu = o'.cpu →
      (collectFields o).cpu = (collectFields o').cpu) ∧
    (∀ o o' : ProbeOutcomes, o.net = o'.net →
      (collectFields o).network = (collectFields o').network) ∧
    (∀ o : ProbeOutcomes, ∃ d, getDeviceInfo o = Except.ok d) ∧
    collectFields ⟨OsVerOutcome.throwEx, RegOutcome.throwEx, MemOutcome.ok 17179869184 8589934592,
        StorOutcome.apiFail, BatOutcome.throwEx, CpuOutcome.throwEx, NetOutcome.noProfile⟩
      = ⟨"windows", "10.0.22000", "Unknown Processor", ⟨17179869184, 8589934592⟩,
         ⟨549755813888, 274877906944⟩, ⟨85, false⟩, ⟨25, 8⟩, ⟨"none", false⟩⟩ := by
  refine ⟨?_, ?_, ?_, ?_, ?_, ?_, rfl⟩
  · intro o o' h
    show GetMemoryInfo o.mem = GetMemoryInfo o'.mem
    rw [h]
  · intro o o' h
    show GetStorageInfo o.stor = GetStorageInfo o'.stor
    rw [h]
  · intro o o' h
    show GetBatteryInfo o.bat = GetBatteryInfo o'.bat
    rw [h]
  · intro o o' h
    show GetCpuInfo o.cpu = GetCpuInfo o'.cpu
    rw [h]
  · intro o o' h
    show GetNetworkInfo o.net = GetNetworkInfo o'.net
    rw [h]
  · intro o
    exact ⟨_, rfl⟩

/-- Witness for C3: two runs that agree only on the memory outcome produce
the same memory field. -/
theorem probe_isolation_witness :
    (collectFields ⟨OsVerOutcome.throwEx, RegOutcome.throwEx, MemOutcome.ok 17179869184 8589934592,
        StorOutcome.apiFail, BatOutcome.throwEx, CpuOutcome.throwEx, NetOutcome.noProfile⟩).memory
      = (collectFields ⟨OsVerOutcome.apiFail, RegOutcome.ok "AMD Ryzen 7", MemOutcome.ok 17179869184 8589934592,
        StorOutcome.ok 1 2, BatOutcome.noReport, CpuOutcome.pdhOk 16 12, NetOutcome.throwEx⟩).memory :=
  probe_isolation.1
    ⟨OsVerOutcome.throwEx, RegOutcome.throwEx, MemOutcome.ok 17179869184 8589934592,
     StorOutcome.apiFail, BatOutcome.throwEx, CpuOutcome.throwEx, NetOutcome.noProfile⟩
    ⟨OsVerOutcome.apiFail, RegOutcome.ok "AMD Ryzen 7", MemOutcome.ok 17179869184 8589934592,
     StorOutcome.ok 1 2, BatOutcome.noReport, CpuOutcome.pdhOk 16 12, NetOutcome.throwEx⟩
    rfl

end RNDeviceAi

namespace Fabric

/-- Wrapped uint64 subtraction agrees with truncated subtraction when no
underflow occurs and the minuend is in range. -/
theorem sub64_of_le {a b : Nat} (hb : b ≤ a) (ha : a < u64) : a - b = sub64 a b := by
  have hblt : b < u64 := lt_of_le_of_lt hb ha
  unfold sub64
  rw [Nat.mod_eq_of_lt hblt]
  have h1 : a + u64 - b = (a - b) + u64 := by omega
  rw [h1, Nat.add_mod_right, Nat.mod_eq_of_lt (by omega)]

/-- C4 counterexample: a run of GetCPUUsage whose idle-tick delta (95)
exceeds the busy-total delta (10): the unsigned subtraction wraps and the
usage placed in the result is far above 100, so no clamping to [0,100]
happens. -/
theorem cpu_usage_exceeds_100 :
    100 < (GetCPUUsage ⟨5, 10, 0⟩ (TimesOutcome.ok 100 20 0)).1 := by
  show (100 : Rat) < ((sub64 10 95 : Nat) : Rat) / ((10 : Nat) : Rat) * 100
  norm_num [sub64, u64]

/-- C4 amended: the usage is never below 0, and it is at most 100 whenever
the idle delta does not exceed the total delta (the only regime the OS
produces, kernel time containing idle time); the source applies no explicit
clamp, and the PDH path of GetCpuInfo likewise stores the formatted counter
value unchanged. -/
theorem cpu_usage_bounds :
    (∀ (st : CpuState) (o : TimesOutcome), 0 ≤ (GetCPUUsage st o).1) ∧
    (∀ (st : CpuState) (idle kernel user : Nat),
      sub64 idle st.lastIdleTime ≤
          (sub64 kernel st.lastKernelTime + sub64 user st.lastUserTime) % u64 →
      (GetCPUUsage st (TimesOutcome.ok idle kernel user)).1 ≤ 100) ∧
    (∀ (c : Nat) (v : Rat), (RNDeviceAi.GetCpuInfo (RNDeviceAi.CpuOutcome.pdhOk c v)).usage = v) := by
  refine ⟨?_, ?_, fun c v => rfl⟩
  · intro st o
    cases o with
    | apiFail => exact le_refl 0
    | ok i k u =>
        simp only [GetCPUUsage]
        split
        · split
          · positivity
          · simp
        · simp
  · intro st idle kernel user hle
    simp only [GetCPUUsage]
    split
    · split
      · rename_i hpos
        set t := (sub64 kernel st.lastKernelTime + sub64 user st.lastUserTime) % u64 with ht
        have htu : t < u64 := Nat.mod_lt _ (by norm_num [u64])
        have hsub : sub64 t (sub64 idle st.lastIdleTime) = t - sub64 idle st.lastIdleTime :=
          (sub64_of_le hle htu).symm
        simp only
        rw [hsub]
        have h1 : ((t - sub64 idle st.lastIdleTime : Nat) : Rat) ≤ ((t : Nat) : Rat) := by
          exact_mod_cast Nat.sub_le _ _
        have h2 : (0 : Rat) < ((t : Nat) : Rat) := by exact_mod_cast hpos
        calc ((t - sub64 idle st.lastIdleTime : Nat) : Rat) / ((t : Nat) : Rat) * 100
            ≤ 1 * 100 := by
              apply mul_le_mul_of_nonneg_right _ (by norm_num)
              rw [div_le_one h2]
              exact h1
          _ = 100 := by norm_num
      · simp
    · simp

/-- Witness for C4 amended at a sane tick sample: from state (5, 10, 0) a
second sample (10, 30, 0) has idle delta 5 and total delta 20, and the
resulting usage lies in [0, 100]. -/
theorem cpu_usage_bounds_witness :
    0 ≤ (GetCPUUsage ⟨5, 10, 0⟩ (TimesOutcome.ok 10 30 0)).1 ∧
    (GetCPUUsage ⟨5, 10, 0⟩ (TimesOutcome.ok 10 30 0)).1 ≤ 100 :=
  ⟨cpu_usage_bounds.1 ⟨5, 10, 0⟩ (TimesOutcome.ok 10 30 0),
   cpu_usage_bounds.2.1 ⟨5, 10, 0⟩ 10 30 0 (by decide)⟩

/-- C5: from the zero-initialized static state, a first successful sampling
returns exactly 0 (a well-defined number, not an error) and records the
sample; a second call on the recorded state with a positive total delta
computes the delta usage 100 * (totalDiff - idleDiff) / totalDiff. -/
theorem cpu_first_call (idle kernel user i2 k2 u2 : Nat) (h : idle ≠ 0)
    (hpos : 0 < (sub64 k2 kernel + sub64 u2 user) % u64) :
    GetCPUUsage initialCpuState (TimesOutcome.ok idle kernel user) = (0, ⟨idle, kernel, user⟩) ∧
    (GetCPUUsage ⟨idle, kernel, user⟩ (TimesOutcome.ok i2 k2 u2)).1 =
      ((sub64 ((sub64 k2 kernel + sub64 u2 user) % u64) (sub64 i2 idle) : Nat) : Rat)
        / (((sub64 k2 kernel + sub64 u2 user) % u64 : Nat) : Rat) * 100 := by
  constructor
  · simp [GetCPUUsage, initialCpuState]
  · simp only [GetCPUUsage]
    rw [if_pos h, if_pos hpos]

/-- Witness for C5: first sample (1, 2, 0), second sample (2, 5, 1); the
second call computes 100 * (4 - 1) / 4 = 75. -/
theorem cpu_first_call_witness :
    GetCPUUsage initialCpuState (TimesOutcome.ok 1 2 0) = (0, ⟨1, 2, 0⟩) ∧
    (GetCPUUsage ⟨1, 2, 0⟩ (TimesOutcome.ok 2 5 1)).1 =
      ((sub64 ((sub64 5 2 + sub64 1 0) % u64) (sub64 2 1) : Nat) : Rat)
        / (((sub64 5 2 + sub64 1 0) % u64 : Nat) : Rat) * 100 :=
  cpu_first_call 1 2 0 2 5 1 (by decide) (by decide)

/-- C6: when a prior sample exists and the total tick delta is zero, the
computation short-circuits before the division: the fallback 0.0 is
returned (with the new sample stored) and no division by zero occurs. -/
theorem cpu_zero_delta (st : CpuState) (idle kernel user : Nat)
    (h0 : st.lastIdleTime ≠ 0)
    (hz : (sub64 kernel st.lastKernelTime + sub64 user st.lastUserTime) % u64 = 0) :
    GetCPUUsage st (TimesOutcome.ok idle kernel user) = (0, ⟨idle, kernel, user⟩) := by
  simp [GetCPUUsage, h0, hz]

/-- Witness for C6: a repeated identical sample gives kernel and user deltas
of zero, and the call returns 0 while storing the new sample. -/
theorem cpu_zero_delta_witness :
    GetCPUUsage ⟨1, 7, 3⟩ (TimesOutcome.ok 5 7 3) = (0, ⟨5, 7, 3⟩) :=
  cpu_zero_delta ⟨1, 7, 3⟩ 5 7 3 (by decide) (by decide)

/-- C8: construction of the DeviceAI collector fails exactly when the fabric
setup (COM plus WMI security, with RPC_E_TOO_LATE tolerated) fails, and on
success the owner receives a collector whose fabric is marked ready. -/
theorem construct_fails_iff (c : ComInitOutcome) (s : SecInitOutcome) :
    (isError (DeviceAIConstruct c s) = true ↔ fabricInit c s = false) ∧
    (fabricInit c s = true → DeviceAIConstruct c s = Except.ok ⟨true⟩) := by
  cases c <;> cases s <;> simp [DeviceAIConstruct, fabricInit, isError]

/-- Witness for C8: a failing CoInitializeEx makes construction fail, and a
fully successful setup constructs the collector. -/
theorem construct_fails_iff_witness :
    isError (DeviceAIConstruct ComInitOutcome.comFail SecInitOutcome.ok) = true ∧
    DeviceAIConstruct ComInitOutcome.ok SecInitOutcome.ok = Except.ok ⟨true⟩ :=
  ⟨(construct_fails_iff ComInitOutcome.comFail SecInitOutcome.ok).1.mpr rfl,
   (construct_fails_iff ComInitOutcome.ok SecInitOutcome.ok).2 rfl⟩

/-- C10: CollectDeviceInfo on a fabric whose setup has not succeeded returns
the zero-initialized record unchanged - every string field empty and every
numeric field zero - not the documented fallback values, so the no-empty
fallback guarantee does not hold on this path. -/
theorem uninited_collect_zero (st : CpuState) (e : FabricEnv) :
    (CollectDeviceInfo ⟨false⟩ st e).1 = zeroDeviceInfo ∧
    (CollectDeviceInfo ⟨false⟩ st e).2 = st ∧
    zeroDeviceInfo = ⟨"", "", "", "", 0, 0, 0, 0, 0, "", 0, 0, 0, ""⟩ ∧
    zeroDeviceInfo.processorName ≠ "Unknown Processor" ∧
    zeroDeviceInfo.osVersion ≠ "10.0.22000" ∧
    zeroDeviceInfo.totalMemory ≠ 8589934592 :=
  ⟨rfl, rfl, rfl, by decide, by decide, by decide⟩

end Fabric

namespace RNDeviceAi

/-- C7: every failure path of the four identity probes returns exactly the
fixed descriptive fallback string of the table, never an empty value. -/
theorem identity_fallbacks :
    GetOSVersion OsVerOutcome.apiFail = "10.0.22000" ∧
    GetOSVersion OsVerOutcome.throwEx = "10.0.22000" ∧
    GetBuildNumber RegOutcome.valueFail = "22000" ∧
    GetBuildNumber RegOutcome.openFail = "22000" ∧
    GetBuildNumber RegOutcome.throwEx = "22000" ∧
    GetProcessorInfo RegOutcome.valueFail = "Unknown Processor" ∧
    GetProcessorInfo RegOutcome.openFail = "Unknown Processor" ∧
    GetProcessorInfo RegOutcome.throwEx = "Unknown Processor" ∧
    GetSystemArchitecture ArchOutcome.throwEx = "x64" ∧
    GetOSVersion OsVerOutcome.apiFail ≠ "" ∧
    GetBuildNumber RegOutcome.openFail ≠ "" ∧
    GetProcessorInfo RegOutcome.openFail ≠ "" ∧
    GetSystemArchitecture ArchOutcome.throwEx ≠ "" := by
  refine ⟨rfl, rfl, rfl, rfl, rfl, rfl, rfl, rfl, rfl, ?_, ?_, ?_, ?_⟩ <;> decide

end RNDeviceAi

namespace Fabric

/-- Witness for C10: the uninitialized path at a concrete state and
environment returns the zero record, whose processor name is not the
documented fallback. -/
theorem uninited_collect_zero_witness :
    (CollectDeviceInfo ⟨false⟩ initialCpuState
        ⟨VerOutcome.apiFail, 0, 0, DiskOutcome.apiFail, PowerOutcome.apiFail, 0,
         TimesOutcome.apiFail, ProcOutcome.apiFail⟩).1 = zeroDeviceInfo ∧
    zeroDeviceInfo.processorName ≠ "Unknown Processor" :=
  ⟨(uninited_collect_zero initialCpuState
      ⟨VerOutcome.apiFail, 0, 0, DiskOutcome.apiFail, PowerOutcome.apiFail, 0,
       TimesOutcome.apiFail, ProcOutcome.apiFail⟩).1,
   (uninited_collect_zero initialCpuState
      ⟨VerOutcome.apiFail, 0, 0, DiskOutcome.apiFail, PowerOutcome.apiFail, 0,
       TimesOutcome.apiFail, ProcOutcome.apiFail⟩).2.2.2.1⟩

end Fabric

namespace RNDeviceAi

/-- Witness for C7: the fallback of a failed OS-version probe evaluated
concretely, and its nonemptiness. -/
theorem identity_fallbacks_witness :
    GetOSVersion OsVerOutcome.apiFail = "10.0.22000" ∧
    GetProcessorInfo RegOutcome.openFail ≠ "" :=
  ⟨identity_fallbacks.1, identity_fallbacks.2.2.2.2.2.2.2.2.2.2.2.1⟩

end RNDeviceAi
